import Mathlib

/-!
Verification of the Zenodo RDM migrator parent-record transformer
(`zenodo_rdm_migrator/transform/entries/parents.py`).

The legacy entry is a semi-structured mapping; we embed it as a structure
with `Option` fields so that presence/absence of each recognized key is
explicit.  Python falsiness of a string (`None` or `""`) and of a sequence
(`None` or `[]`) is modelled by explicit tests.  The `transform` method can
raise (`NoConceptRecidForDraft`, `KeyError`), so its embedding returns
`Except TransformError Transformed`.
-/

namespace ZenodoParents

/-- The `_deposit` sub-mapping of a legacy entry; only its `owners` key is
read by the transformer. -/
structure DepositSection where
  owners : Option (List Int)
deriving DecidableEq, Repr

/-- The `json` sub-mapping of a legacy entry, with the sub-fields the
transformer reads.  `schema` stands for the `$schema` key. -/
structure JsonSection where
  schema : Option String
  conceptrecid : Option String
  communities : Option (List String)
  doi : Option String
  conceptdoi : Option String
  owners : Option (List Int)
  deposit : Option DepositSection
  access_conditions : Option String
deriving DecidableEq, Repr

/-- A legacy entry: the recognized top-level keys plus the optional nested
`json` mapping. -/
structure Entry where
  created : Option String
  updated : Option String
  version_id : Option String
  json : Option JsonSection
deriving DecidableEq, Repr

/-- A `pids.doi` value.  The datacite shape has `client` present, the legacy
shape omits it. -/
structure DoiPid where
  client : Option String
  provider : String
  identifier : String
deriving DecidableEq, Repr

/-- The `communities` object of the output.  `ids = none` means the key is
absent; `default = some none` means the key is present with value null. -/
structure CommunitiesResult where
  ids : Option (List String)
  default : Option (Option String)
deriving DecidableEq, Repr

/-- The `access.owned_by` object of the output. -/
structure OwnedBy where
  user : Int
deriving DecidableEq, Repr

/-- The `access.settings` object of the output. -/
structure AccessSettings where
  allow_user_requests : Bool
  allow_guest_requests : Bool
  accept_conditions_text : String
  secret_link_expiration : Nat
deriving DecidableEq, Repr

/-- The `access` object of the output; either sub-key may be absent. -/
structure Access where
  owned_by : Option OwnedBy
  settings : Option AccessSettings
deriving DecidableEq, Repr

/-- The `json` sub-mapping of a transformed (target) record. -/
structure TargetJson where
  schema : String
  id : String
  communities : CommunitiesResult
  pids : Option DoiPid
  access : Option Access
deriving DecidableEq, Repr

/-- The transformed output mapping. -/
structure Transformed where
  created : Option String
  updated : Option String
  version_id : Option String
  json : Option TargetJson
deriving DecidableEq, Repr

/-- The failures `transform` can raise: the typed
`NoConceptRecidForDraft(draft=entry)` carrying the offending entry, and a
plain `KeyError(key)`. -/
inductive TransformError where
  | noConceptRecidForDraft (draft : Entry)
  | keyError (key : String)
deriving DecidableEq, Repr

/-- `ZENODO_DATACITE_PREFIXES` from the source: the platform DOI prefix and
the test DOI prefix. -/
def ZENODO_DATACITE_PREFIXES : List String := ["10.5281/", "10.5072/"]

/-- `IGNORED_COMMUNITIES` from the source. -/
def IGNORED_COMMUNITIES : List String := ["zenodo", "ecfunded"]

/-- Python truthiness of an optional string: `None` and `""` are falsy. -/
def truthyStr : Option String → Bool
  | none => false
  | some s => !(s == "")

/-- Containment of one character list in another (Python's `in` on strings). -/
def hasInfix (pat : List Char) : List Char → Bool
  | [] => pat.isEmpty
  | c :: rest => pat.isPrefixOf (c :: rest) || hasInfix pat rest

/-- Python `"deposits" in s`: substring containment. -/
def containsDeposits (s : String) : Bool :=
  hasInfix "deposits".toList s.toList

/-- Python `doi.startswith(ZENODO_DATACITE_PREFIXES)` (stated on character
lists, where prefix matching is structural). -/
def startsWithZenodoPrefixes (doi : String) : Bool :=
  ZENODO_DATACITE_PREFIXES.any (fun p => List.isPrefixOf p.toList doi.toList)

/-- `ParentRecordEntry._schema`: the fixed target schema locator. -/
def _schema (_entry : Entry) : String :=
  "local://records/parent-v3.0.0.json"

/-- The list comprehension of `_communities`: the community slugs that are
not platform-reserved, order and duplicates preserved. -/
def eligibleSlugs (cs : List String) : List String :=
  cs.filter (fun slug => !(IGNORED_COMMUNITIES.contains slug))

/-- `ParentRecordEntry._communities` (it reads only `entry["json"]`, which
`transform` has already checked is present, so we pass the json section).
Python `if communities:` is false for an absent or empty sequence; `slugs[0]`
on a singleton list is its head. -/
def _communities (j : JsonSection) : CommunitiesResult :=
  match j.communities with
  | none => { ids := none, default := none }
  | some [] => { ids := none, default := none }
  | some cs =>
      let slugs := eligibleSlugs cs
      if slugs.length = 1 then
        { ids := some slugs, default := some slugs.head? }
      else
        { ids := some slugs, default := some none }

/-- Python truthiness and prefix test on the `doi` value:
`doi and doi.startswith(ZENODO_DATACITE_PREFIXES)`. -/
def recognizedDoi : Option String → Bool
  | none => false
  | some d => !(d == "") && startsWithZenodoPrefixes d

/-- The pure part of `_pids`, once the `$schema` lookup has succeeded:
emit the datacite-shaped DOI when a recognized `doi` and a truthy
`conceptdoi` are present, the legacy-shaped DOI when the recognized `doi`
has no truthy `conceptdoi` and the entry is not a draft, nothing
otherwise. -/
def pidsOfSchema (schema : String) (j : JsonSection) : Option DoiPid :=
  let is_draft := containsDeposits schema
  if recognizedDoi j.doi then
    if truthyStr j.conceptdoi then
      some { client := some "datacite", provider := "datacite",
             identifier := j.conceptdoi.getD "" }
    else if !is_draft then
      some { client := none, provider := "legacy", identifier := "" }
    else
      none
  else
    none

/-- `ParentRecordEntry._pids`.  It reads `entry["json"]["$schema"]`
unconditionally (raising `KeyError` when the key is absent) before looking
at the DOI fields. -/
def _pids (j : JsonSection) : Except TransformError (Option DoiPid) :=
  match j.schema with
  | none => Except.error (TransformError.keyError "$schema")
  | some schema => Except.ok (pidsOfSchema schema j)

/-- Modelled from the spec: `Entry._load_partial` lives in the external
`invenio_rdm_migrator` package, not in this repository's sources.  Per the
spec's direct-field copy rule it copies each of `created`, `updated`,
`version_id` from input to output unchanged, only when the key is present
in the input. -/
def loadDirectFields (entry : Entry) (t : Transformed) : Transformed :=
  { t with
    created := match entry.created with | some v => some v | none => t.created
    updated := match entry.updated with | some v => some v | none => t.updated
    version_id := match entry.version_id with | some v => some v | none => t.version_id }

/-- The empty output mapping `transformed = {}`. -/
def Transformed.empty : Transformed :=
  { created := none, updated := none, version_id := none, json := none }

/-- The owners list `entry["json"].get("owners") or []`. -/
def ownersOf (j : JsonSection) : List Int :=
  j.owners.getD []

/-- The fallback owners list `entry["json"].get("_deposit", {}).get("owners") or []`. -/
def depositOwnersOf (j : JsonSection) : List Int :=
  match j.deposit with
  | none => []
  | some d => d.owners.getD []

/-- Python `next(iter(owners or deposit_owners), None)`. -/
def resolvedOwner (j : JsonSection) : Option Int :=
  (if ownersOf j = [] then depositOwnersOf j else ownersOf j).head?

/-- The `access` object assembled by lines 98-113 of `transform`: first the
ownership rule sets `access = {owned_by: {user: owner}}` when an owner
resolves (the `setdefault` there is immediately overwritten, and nothing
was set before it), then the access-settings rule merges a `settings`
sub-key into the existing object when `access_conditions` is truthy. -/
def accessOf (j : JsonSection) : Option Access :=
  let access₁ : Option Access :=
    match resolvedOwner j with
    | some o => some { owned_by := some { user := o }, settings := none }
    | none => none
  match j.access_conditions with
  | some ac =>
      if ac = "" then access₁
      else
        let base := access₁.getD { owned_by := none, settings := none }
        some { base with
          settings := some { allow_user_requests := true,
                             allow_guest_requests := true,
                             accept_conditions_text := ac,
                             secret_link_expiration := 30 } }
  | none => access₁

/-- `ParentRecordEntry.transform`.  The flag `pMode` is the transformer's
`self.partial` configuration attribute (from the external base class, fixed
at construction time per the spec). -/
def transform (pMode : Bool) (entry : Entry) : Except TransformError Transformed :=
  let transformed := loadDirectFields entry Transformed.empty
  match entry.json with
  | some j =>
      match j.conceptrecid with
      | none => Except.error (TransformError.noConceptRecidForDraft entry)
      | some pid =>
          if pid = "" then Except.error (TransformError.noConceptRecidForDraft entry)
          else
            match _pids j with
            | Except.error err => Except.error err
            | Except.ok pids =>
                Except.ok { transformed with
                  json := some { schema := _schema entry
                                 id := pid
                                 communities := _communities j
                                 pids := pids
                                 access := accessOf j } }
  | none =>
      if pMode then Except.ok transformed
      else Except.error (TransformError.keyError "json")

/-- The communities object of a transform result, when an output with a
`json` section was produced. -/
def outputCommunities (r : Except TransformError Transformed) : Option CommunitiesResult :=
  match r with
  | Except.error _ => none
  | Except.ok t =>
      match t.json with
      | none => none
      | some tj => some tj.communities

/-- The pids object of a transform result, when an output with a `json`
section was produced. -/
def outputPids (r : Except TransformError Transformed) : Option (Option DoiPid) :=
  match r with
  | Except.error _ => none
  | Except.ok t =>
      match t.json with
      | none => none
      | some tj => some tj.pids

/-- The access object of a transform result, when an output with a `json`
section was produced. -/
def outputAccess (r : Except TransformError Transformed) : Option (Option Access) :=
  match r with
  | Except.error _ => none
  | Except.ok t =>
      match t.json with
      | none => none
      | some tj => some tj.access

/-- The `access.owned_by.user` value of a transform result: `some (some o)`
when the output carries an owner `o`, `some none` when an output with a
`json` section was produced but without an `access.owned_by` entry. -/
def outputOwner (r : Except TransformError Transformed) : Option (Option Int) :=
  match outputAccess r with
  | none => none
  | some none => some none
  | some (some a) =>
      match a.owned_by with
      | none => some none
      | some ob => some (some ob.user)

/-! Concrete entries used as witnesses and counterexamples. -/

/-- Schema locator of a published (non-deposit) legacy record. -/
def schemaRecord : String := "https://zenodo.org/schemas/records/record-v1.0.0.json"

/-- A minimal well-formed json section of a published record. -/
def jsonBase : JsonSection :=
  { schema := some schemaRecord, conceptrecid := some "123", communities := none,
    doi := none, conceptdoi := none, owners := none, deposit := none,
    access_conditions := none }

/-- Wrap a json section into a full legacy entry. -/
def entryOf (j : JsonSection) : Entry :=
  { created := some "2023-05-01T00:00:00", updated := some "2023-05-02T00:00:00",
    version_id := some "1", json := some j }

/-- A json section whose communities are all platform-reserved. -/
def jsonOnlyReserved : JsonSection :=
  { jsonBase with communities := some ["zenodo", "ecfunded"] }

/-- A json section with two eligible communities. -/
def jsonTwoComms : JsonSection :=
  { jsonBase with communities := some ["bio", "chem"] }

/-- A json section missing its required conceptrecid. -/
def jsonNoRecid : JsonSection :=
  { jsonBase with conceptrecid := none }

/-- A json section missing the $schema key. -/
def jsonNoSchema : JsonSection :=
  { jsonBase with schema := none }

/-- A json section with a recognized doi and a conceptdoi. -/
def jsonDoiConcept : JsonSection :=
  { jsonBase with doi := some "10.5281/zenodo.123",
                  conceptdoi := some "10.5281/zenodo.100" }

/-- A json section whose owner comes from the _deposit fallback. -/
def jsonDepositOwners : JsonSection :=
  { jsonBase with owners := some [], deposit := some { owners := some [42] } }

/-- A json section with both an owner and access conditions. -/
def jsonOwnerAccess : JsonSection :=
  { jsonBase with owners := some [7], access_conditions := some "restricted" }

/-- A partial entry carrying no json section. -/
def entryNoJson : Entry :=
  { created := some "2023-05-01T00:00:00", updated := none,
    version_id := some "3", json := none }

/-! Helper lemmas shared by the claim theorems. -/

theorem loadDirectFields_empty (e : Entry) :
    loadDirectFields e Transformed.empty =
      { created := e.created, updated := e.updated,
        version_id := e.version_id, json := none } := by
  obtain ⟨c, u, v, j⟩ := e
  cases c <;> cases u <;> cases v <;> rfl

theorem transform_json_ok (pMode : Bool) (e : Entry) (j : JsonSection) (pid s : String)
    (hj : e.json = some j) (hpid : j.conceptrecid = some pid) (hpid' : pid ≠ "")
    (hs : j.schema = some s) :
    transform pMode e = Except.ok
      { created := e.created, updated := e.updated, version_id := e.version_id,
        json := some { schema := _schema e, id := pid,
                       communities := _communities j,
                       pids := pidsOfSchema s j,
                       access := accessOf j } } := by
  simp only [transform, hj, hpid, if_neg hpid', _pids, hs, loadDirectFields_empty]

/-! Claim theorems. -/

/-- C1: for every entry in which the json key is present but
json.conceptrecid is absent, transform raises the distinct
missing-required-field failure carrying the offending entry, and no output
mapping is produced. -/
theorem transform_missing_conceptrecid_raises (pMode : Bool) (e : Entry) (j : JsonSection)
    (hj : e.json = some j) (hpid : j.conceptrecid = none) :
    transform pMode e = Except.error (TransformError.noConceptRecidForDraft e) := by
  simp only [transform, hj, hpid]

theorem transform_missing_conceptrecid_raises_witness :
    transform false (entryOf jsonNoRecid) =
      Except.error (TransformError.noConceptRecidForDraft (entryOf jsonNoRecid)) :=
  transform_missing_conceptrecid_raises false (entryOf jsonNoRecid) jsonNoRecid rfl rfl

/-- C10: for every entry in which json is present with a non-empty
conceptrecid but the json $schema key is absent, transform raises a
key-lookup failure (KeyError on the $schema key) instead of producing an
output: the PID rule reads the $schema value unconditionally. -/
theorem transform_missing_schema_keyerror (pMode : Bool) (e : Entry) (j : JsonSection)
    (pid : String) (hj : e.json = some j) (hpid : j.conceptrecid = some pid)
    (hpid' : pid ≠ "") (hs : j.schema = none) :
    transform pMode e = Except.error (TransformError.keyError "$schema") := by
  simp only [transform, hj, hpid, if_neg hpid', _pids, hs]

theorem transform_missing_schema_keyerror_witness :
    transform false (entryOf jsonNoSchema) =
      Except.error (TransformError.keyError "$schema") :=
  transform_missing_schema_keyerror false (entryOf jsonNoSchema) jsonNoSchema "123"
    rfl rfl (by decide) rfl

/-- C7: for every entry without a json key, transform in partial mode
succeeds with exactly the direct-copied top-level fields that were present
and no json key, while outside partial mode it raises the generic
missing-field failure (a KeyError on "json", not the conceptrecid
failure). -/
theorem transform_without_json (e : Entry) (hj : e.json = none) :
    transform true e = Except.ok { created := e.created, updated := e.updated,
                                   version_id := e.version_id, json := none }
    ∧ transform false e = Except.error (TransformError.keyError "json") := by
  constructor <;> simp [transform, hj, loadDirectFields_empty]

theorem transform_without_json_witness :
    transform true entryNoJson =
      Except.ok { created := some "2023-05-01T00:00:00", updated := none,
                  version_id := some "3", json := none }
    ∧ transform false entryNoJson = Except.error (TransformError.keyError "json") :=
  transform_without_json entryNoJson rfl

/-- C8: for every entry on which transform succeeds, each of the keys
created, updated and version_id is present in the output exactly when it is
present in the input, and carries the identical value. -/
theorem direct_fields_copied (pMode : Bool) (e : Entry) (t : Transformed)
    (h : transform pMode e = Except.ok t) :
    t.created = e.created ∧ t.updated = e.updated ∧ t.version_id = e.version_id := by
  cases hj : e.json with
  | none =>
      cases pMode with
      | false => simp [transform, hj] at h
      | true =>
          rw [transform] at h
          simp only [hj, loadDirectFields_empty] at h
          cases h
          simp
  | some j =>
      cases hpid : j.conceptrecid with
      | none =>
          simp [transform, hj, hpid] at h
      | some pid =>
          by_cases hpid' : pid = ""
          · simp [transform, hj, hpid, hpid'] at h
          · cases hs : j.schema with
            | none => simp [transform, hj, hpid, hpid', _pids, hs] at h
            | some s =>
                rw [transform_json_ok pMode e j pid s hj hpid hpid' hs] at h
                cases h
                simp

theorem direct_fields_copied_witness :
    Transformed.created { created := some "2023-05-01T00:00:00", updated := none,
                          version_id := some "3", json := none }
        = entryNoJson.created
    ∧ Transformed.updated { created := some "2023-05-01T00:00:00", updated := none,
                            version_id := some "3", json := none }
        = entryNoJson.updated
    ∧ Transformed.version_id { created := some "2023-05-01T00:00:00", updated := none,
                               version_id := some "3", json := none }
        = entryNoJson.version_id :=
  direct_fields_copied true entryNoJson
    { created := some "2023-05-01T00:00:00", updated := none,
      version_id := some "3", json := none } rfl

/-- C9: transform is deterministic: two invocations on the same entry with
the same partial-mode flag yield the same result.  The embedding of
transform is a pure function of the flag and the entry, mirroring the
source, which reads only its input, the fixed configuration flag and
module-level constants. -/
theorem transform_deterministic (pMode : Bool) (e₁ e₂ : Entry) (h : e₁ = e₂) :
    transform pMode e₁ = transform pMode e₂ := by
  rw [h]

theorem transform_deterministic_witness :
    transform false entryNoJson = transform false entryNoJson :=
  transform_deterministic false entryNoJson entryNoJson rfl

/-- C2 counterexample: an entry whose communities contain only the
platform-reserved slugs does not get the empty communities object; the code
emits ids as an empty list together with a null default. -/
theorem communities_only_reserved_not_empty_object :
    outputCommunities (transform false (entryOf jsonOnlyReserved)) =
      some { ids := some [], default := some none }
    ∧ ({ ids := some [], default := some none } : CommunitiesResult)
        ≠ { ids := none, default := none } :=
  ⟨rfl, by decide⟩

/-- C2 (amended): with json, a non-empty conceptrecid and a $schema present,
an absent or empty communities sequence yields the empty communities object,
while a non-empty sequence from which the reserved-slug filter removes
everything yields ids present as the empty list and a default key present
with value null. -/
theorem communities_empty_and_reserved_cases (pMode : Bool) (e : Entry) (j : JsonSection)
    (pid s : String) (hj : e.json = some j) (hpid : j.conceptrecid = some pid)
    (hpid' : pid ≠ "") (hs : j.schema = some s) :
    ((j.communities = none ∨ j.communities = some []) →
      outputCommunities (transform pMode e) = some { ids := none, default := none })
    ∧ (∀ cs, j.communities = some cs → cs ≠ [] → eligibleSlugs cs = [] →
        outputCommunities (transform pMode e)
          = some { ids := some [], default := some none }) := by
  have h := transform_json_ok pMode e j pid s hj hpid hpid' hs
  constructor
  · rintro (hc | hc) <;> simp [outputCommunities, h, _communities, hc]
  · intro cs hc hne hfilt
    cases cs with
    | nil => exact absurd rfl hne
    | cons a as =>
        have hcomm : _communities j = { ids := some [], default := some none } := by
          simp only [_communities, hc, hfilt]
          simp
        simp [outputCommunities, h, hcomm]

theorem communities_empty_and_reserved_cases_witness :
    outputCommunities (transform false (entryOf jsonBase)) =
      some { ids := none, default := none } :=
  (communities_empty_and_reserved_cases false (entryOf jsonBase) jsonBase "123"
    schemaRecord rfl rfl (by decide) rfl).1 (Or.inl rfl)

/-- C5: with json, a non-empty conceptrecid and a $schema present, when the
communities sequence filtered of reserved slugs is non-empty, ids equals the
filtered sequence (order and duplicates preserved); a singleton filtered
sequence makes its element the default, and two or more slugs make the
default key present with value null. -/
theorem communities_nonempty_filtered (pMode : Bool) (e : Entry) (j : JsonSection)
    (pid s : String) (cs : List String)
    (hj : e.json = some j) (hpid : j.conceptrecid = some pid) (hpid' : pid ≠ "")
    (hs : j.schema = some s) (hc : j.communities = some cs) (hne : cs ≠ [])
    (hfne : eligibleSlugs cs ≠ []) :
    (outputCommunities (transform pMode e)).map CommunitiesResult.ids
        = some (some (eligibleSlugs cs))
    ∧ (∀ x, eligibleSlugs cs = [x] →
        (outputCommunities (transform pMode e)).map CommunitiesResult.default
          = some (some (some x)))
    ∧ (2 ≤ (eligibleSlugs cs).length →
        (outputCommunities (transform pMode e)).map CommunitiesResult.default
          = some (some none)) := by
  have h := transform_json_ok pMode e j pid s hj hpid hpid' hs
  cases cs with
  | nil => exact absurd rfl hne
  | cons a as =>
      refine ⟨?_, ?_, ?_⟩
      · by_cases h1 : (eligibleSlugs (a :: as)).length = 1 <;>
          simp [outputCommunities, h, _communities, hc, h1]
      · intro x hx
        simp [outputCommunities, h, _communities, hc, hx]
      · intro h2
        have h1 : ¬ (eligibleSlugs (a :: as)).length = 1 := by omega
        simp [outputCommunities, h, _communities, hc, h1]

theorem communities_nonempty_filtered_witness :
    (outputCommunities (transform false (entryOf jsonTwoComms))).map CommunitiesResult.ids
      = some (some (eligibleSlugs ["bio", "chem"])) :=
  (communities_nonempty_filtered false (entryOf jsonTwoComms) jsonTwoComms "123"
    schemaRecord ["bio", "chem"] rfl rfl (by decide) rfl rfl (by decide) (by decide)).1

/-- C3 counterexample: an entry with json present, a non-empty conceptrecid
and no doi, whose $schema key is absent, makes transform raise a KeyError
instead of producing an output whose pids is the empty object. -/
theorem pids_requires_schema_counterexample :
    transform false (entryOf jsonNoSchema) = Except.error (TransformError.keyError "$schema")
    ∧ outputPids (transform false (entryOf jsonNoSchema)) = none :=
  ⟨rfl, rfl⟩

/-- C3 (amended): with json, a non-empty conceptrecid and a $schema value
present (reading presence of doi and conceptdoi as presence of a non-empty
string), the pids of the output follow the exhaustive, mutually exclusive
case split: recognized doi with a conceptdoi gives the datacite-shaped DOI
carrying the conceptdoi; recognized doi without conceptdoi on a non-draft
gives the legacy-shaped DOI with blank identifier; every other case gives no
doi entry. -/
theorem pids_case_split (pMode : Bool) (e : Entry) (j : JsonSection) (pid s : String)
    (hj : e.json = some j) (hpid : j.conceptrecid = some pid) (hpid' : pid ≠ "")
    (hs : j.schema = some s) :
    (∀ c, recognizedDoi j.doi = true → j.conceptdoi = some c → c ≠ "" →
      outputPids (transform pMode e) =
        some (some { client := some "datacite", provider := "datacite", identifier := c }))
    ∧ (recognizedDoi j.doi = true → truthyStr j.conceptdoi = false →
        containsDeposits s = false →
      outputPids (transform pMode e) =
        some (some { client := none, provider := "legacy", identifier := "" }))
    ∧ ((recognizedDoi j.doi = false ∨
          (truthyStr j.conceptdoi = false ∧ containsDeposits s = true)) →
      outputPids (transform pMode e) = some none) := by
  have h := transform_json_ok pMode e j pid s hj hpid hpid' hs
  refine ⟨?_, ?_, ?_⟩
  · intro c hrec hc hc'
    simp [outputPids, h, pidsOfSchema, hrec, truthyStr, hc, hc']
  · intro hrec ht hd
    simp [outputPids, h, pidsOfSchema, hrec, ht, hd]
  · rintro (hrec | ⟨ht, hd⟩)
    · simp [outputPids, h, pidsOfSchema, hrec]
    · cases hrec : recognizedDoi j.doi <;>
        simp [outputPids, h, pidsOfSchema, hrec, ht, hd]

theorem pids_case_split_witness :
    outputPids (transform false (entryOf jsonDoiConcept)) =
      some (some { client := some "datacite", provider := "datacite",
                   identifier := "10.5281/zenodo.100" }) :=
  (pids_case_split false (entryOf jsonDoiConcept) jsonDoiConcept "123" schemaRecord
    rfl rfl (by decide) rfl).1 "10.5281/zenodo.100" (by decide) rfl (by decide)

/-- C4: with json, a non-empty conceptrecid and a $schema present, when both
an owner resolves and access_conditions is a non-empty string, the output
access object carries both sub-keys at once: owned_by.user is the resolved
owner and settings holds the fixed defaults with the legacy text copied
verbatim and a 30-day secret-link expiration. -/
theorem access_owner_and_settings_both_present (pMode : Bool) (e : Entry) (j : JsonSection)
    (pid s : String) (o : Int) (ac : String)
    (hj : e.json = some j) (hpid : j.conceptrecid = some pid) (hpid' : pid ≠ "")
    (hs : j.schema = some s) (ho : resolvedOwner j = some o)
    (hac : j.access_conditions = some ac) (hac' : ac ≠ "") :
    outputAccess (transform pMode e) =
      some (some { owned_by := some { user := o },
                   settings := some { allow_user_requests := true,
                                      allow_guest_requests := true,
                                      accept_conditions_text := ac,
                                      secret_link_expiration := 30 } }) := by
  have h := transform_json_ok pMode e j pid s hj hpid hpid' hs
  simp [outputAccess, h, accessOf, ho, hac, hac']

theorem access_owner_and_settings_both_present_witness :
    outputAccess (transform false (entryOf jsonOwnerAccess)) =
      some (some { owned_by := some { user := 7 },
                   settings := some { allow_user_requests := true,
                                      allow_guest_requests := true,
                                      accept_conditions_text := "restricted",
                                      secret_link_expiration := 30 } }) :=
  access_owner_and_settings_both_present false (entryOf jsonOwnerAccess) jsonOwnerAccess
    "123" schemaRecord 7 "restricted" rfl rfl (by decide) rfl (by decide) rfl (by decide)

/-- C6: with json, a non-empty conceptrecid and a $schema present, the owner
is the first element of owners when that list is non-empty, else the first
element of the _deposit owners when non-empty, else no owner resolves and
the output carries no access.owned_by entry; owners beyond the first of the
chosen list are ignored. -/
theorem owner_resolution (pMode : Bool) (e : Entry) (j : JsonSection) (pid s : String)
    (hj : e.json = some j) (hpid : j.conceptrecid = some pid) (hpid' : pid ≠ "")
    (hs : j.schema = some s) :
    (∀ o os, j.owners = some (o :: os) → outputOwner (transform pMode e) = some (some o))
    ∧ (∀ o os, ownersOf j = [] → depositOwnersOf j = o :: os →
        outputOwner (transform pMode e) = some (some o))
    ∧ (ownersOf j = [] → depositOwnersOf j = [] →
        outputOwner (transform pMode e) = some none) := by
  have h := transform_json_ok pMode e j pid s hj hpid hpid' hs
  have hsome : ∀ o, resolvedOwner j = some o →
      outputOwner (transform pMode e) = some (some o) := by
    intro o ho
    cases hac : j.access_conditions with
    | none => simp [outputOwner, outputAccess, h, accessOf, ho, hac]
    | some ac =>
        by_cases hac' : ac = "" <;>
          simp [outputOwner, outputAccess, h, accessOf, ho, hac, hac']
  have hnone : resolvedOwner j = none →
      outputOwner (transform pMode e) = some none := by
    intro ho
    cases hac : j.access_conditions with
    | none => simp [outputOwner, outputAccess, h, accessOf, ho, hac]
    | some ac =>
        by_cases hac' : ac = "" <;>
          simp [outputOwner, outputAccess, h, accessOf, ho, hac, hac']
  refine ⟨?_, ?_, ?_⟩
  · intro o os ho
    exact hsome o (by simp [resolvedOwner, ownersOf, ho])
  · intro o os h0 hd
    exact hsome o (by simp [resolvedOwner, h0, hd])
  · intro h0 hd
    exact hnone (by simp [resolvedOwner, h0, hd])

theorem owner_resolution_witness :
    outputOwner (transform false (entryOf jsonDepositOwners)) = some (some 42) :=
  (owner_resolution false (entryOf jsonDepositOwners) jsonDepositOwners "123"
    schemaRecord rfl rfl (by decide) rfl).2.1 42 [] rfl rfl

end ZenodoParents
